import Mathlib

/-!
Shallow embedding of `robust_generator.py` (RobustFastAPIGenerator).

Python strings are modelled as `List Char`.  The language model backend
(`ChatOllama.invoke`) and the host filesystem are external collaborators and
are modelled as explicit inputs: the model call is a function returning
`Except`, filesystem operations come with explicit success/failure outcomes,
and the filesystem itself is an association list from paths to contents.
-/

namespace RobustGenerator

/-- Python `str.strip()` whitespace predicate, restricted to the ASCII
whitespace characters (the only ones occurring in this program's data). -/
def isPySpace (c : Char) : Bool :=
  c = ' ' || c = '\t' || c = '\n' || c = '\r' || c = '\x0b' || c = '\x0c'

/-- Remove trailing characters satisfying `isPySpace`. -/
def stripRight : List Char → List Char
  | [] => []
  | c :: cs =>
    match stripRight cs with
    | [] => if isPySpace c then [] else [c]
    | r => c :: r

/-- Python `str.strip()`: drop leading and trailing whitespace. -/
def pyStrip (l : List Char) : List Char :=
  stripRight (l.dropWhile isPySpace)

/-- The opening reasoning marker of the regex `<think>.*?</think>`. -/
def openTag : List Char := ("<think>").toList

/-- The closing reasoning marker of the regex `<think>.*?</think>`. -/
def closeTag : List Char := ("</think>").toList

/-- Scan forward for the first occurrence of `closeTag`; on success return
the suffix that follows it (the non-greedy `.*?</think>` step of
`re.sub(r'<think>.*?</think>', '', s, flags=re.DOTALL)`). -/
def findCloseSplit : List Char → Option (List Char)
  | [] => none
  | c :: cs =>
    if closeTag.isPrefixOf (c :: cs) then some ((c :: cs).drop closeTag.length)
    else findCloseSplit cs

/-- Fuelled left-to-right scan implementing
`re.sub(r'<think>.*?</think>', '', s, flags=re.DOTALL)`: at each position, if
an opener starts here and a closer follows, delete through the first closer
and continue after it; otherwise keep the character.  Fuel bounds the
recursion; `removeThink` supplies fuel `l.length`, which is always enough
because every step strictly shrinks the remaining input. -/
def removeThinkAux : Nat → List Char → List Char
  | 0, l => l
  | _ + 1, [] => []
  | fuel + 1, c :: cs =>
    if openTag.isPrefixOf (c :: cs) then
      match findCloseSplit ((c :: cs).drop openTag.length) with
      | some rest => removeThinkAux fuel rest
      | none => c :: removeThinkAux fuel cs
    else c :: removeThinkAux fuel cs

/-- Line 151: `re.sub(r'<think>.*?</think>', '', s, flags=re.DOTALL)`. -/
def removeThink (l : List Char) : List Char :=
  removeThinkAux l.length l

/-- The plain code-fence marker. -/
def fenceTag : List Char := ("```").toList

/-- The language-tagged code-fence marker. -/
def pyFenceTag : List Char := ("```python").toList

/-- Lines 152-157: drop one leading ```python (9 chars) or ``` (3 chars)
fence, then drop one trailing ``` fence (`enhanced_code[:-3]`). -/
def stripFences (l : List Char) : List Char :=
  let s :=
    if pyFenceTag.isPrefixOf l then l.drop 9
    else if fenceTag.isPrefixOf l then l.drop 3
    else l
  if fenceTag.isSuffixOf s then s.take (s.length - 3) else s

/-- The whole response-sanitization transform of `enhance_with_llm`
(lines 148-159): strip, remove think blocks, strip fences, strip again. -/
def sanitize (l : List Char) : List Char :=
  pyStrip (stripFences (removeThink (pyStrip l)))

/-! ### Validator

The source validates candidate code with `compile(code, '<string>', 'exec')`,
i.e. CPython's parser, which is part of the language runtime, not of this
repository.  Modelled from the spec: "given candidate source text, attempts
to parse it under the target language's grammar" — modelled here as a
string/comment-aware scanner checking that quotes are well terminated,
single-quoted strings contain no raw newline, and brackets are balanced and
correctly nested: a decidable necessary condition of Python's grammar that
the fixed template satisfies and the empty program satisfies.  Theorems that
quantify over the validator (`C1`, `C2`) do not depend on this model. -/

/-- Scanner modes: normal code, comment, single/double-quoted strings,
triple-quoted strings, plus bookkeeping modes for quote runs (`sq1`/`sq2`:
one/two single quotes seen from code; `ts1`/`ts2`: one/two single quotes of
a potential closing triple; `sstrEsc` etc.: just after a backslash; and the
double-quote mirrors of all of these). -/
inductive ScanMode
  | norm | comment
  | sq1 | sq2 | sstr | sstrEsc | tsstr | tsstrEsc | ts1 | ts2
  | dq1 | dq2 | dstr | dstrEsc | tdstr | tdstrEsc | td1 | td2
deriving DecidableEq, BEq

/-- The single-quote character. -/
def squote : Char := Char.ofNat 39

/-- The double-quote character. -/
def dquote : Char := '"'

/-- The backslash character. -/
def backslashChar : Char := Char.ofNat 92

/-- Opening brackets of Python. -/
def isOpenBracket (c : Char) : Bool := c = '(' || c = '[' || c = '\x7b'

/-- Closing brackets of Python. -/
def isCloseBracket (c : Char) : Bool := c = ')' || c = ']' || c = '\x7d'

/-- Does closing bracket `c` match opening bracket `o`? -/
def bracketCloses (o c : Char) : Bool :=
  (o = '(' && c = ')') || (o = '[' && c = ']') || (o = '\x7b' && c = '\x7d')

/-- Scanner state: current mode, stack of currently open brackets, and a
sticky error flag (`ok` never returns to `true` once an error is seen). -/
structure ScanSt where
  mode : ScanMode
  stack : List Char
  ok : Bool
deriving DecidableEq, BEq

/-- One scanner step from normal-code mode. -/
def normStep (st : List Char) (ok : Bool) (c : Char) : ScanSt :=
  if c = '#' then ⟨ScanMode.comment, st, ok⟩
  else if c = squote then ⟨ScanMode.sq1, st, ok⟩
  else if c = dquote then ⟨ScanMode.dq1, st, ok⟩
  else if isOpenBracket c then ⟨ScanMode.norm, c :: st, ok⟩
  else if isCloseBracket c then
    match st with
    | [] => ⟨ScanMode.norm, [], false⟩
    | o :: rest => ⟨ScanMode.norm, rest, ok && bracketCloses o c⟩
  else ⟨ScanMode.norm, st, ok⟩

/-- One scanner step: a deterministic automaton over single characters. -/
def scanStep (s : ScanSt) (c : Char) : ScanSt :=
  match s.mode with
  | ScanMode.norm => normStep s.stack s.ok c
  | ScanMode.comment =>
    if c = '\n' then ⟨ScanMode.norm, s.stack, s.ok⟩ else s
  | ScanMode.sq1 =>
    if c = squote then ⟨ScanMode.sq2, s.stack, s.ok⟩
    else if c = backslashChar then ⟨ScanMode.sstrEsc, s.stack, s.ok⟩
    else if c = '\n' then ⟨ScanMode.sstr, s.stack, false⟩
    else ⟨ScanMode.sstr, s.stack, s.ok⟩
  | ScanMode.sq2 =>
    if c = squote then ⟨ScanMode.tsstr, s.stack, s.ok⟩
    else normStep s.stack s.ok c
  | ScanMode.sstr =>
    if c = squote then ⟨ScanMode.norm, s.stack, s.ok⟩
    else if c = backslashChar then ⟨ScanMode.sstrEsc, s.stack, s.ok⟩
    else if c = '\n' then ⟨ScanMode.sstr, s.stack, false⟩
    else ⟨ScanMode.sstr, s.stack, s.ok⟩
  | ScanMode.sstrEsc => ⟨ScanMode.sstr, s.stack, s.ok⟩
  | ScanMode.tsstr =>
    if c = squote then ⟨ScanMode.ts1, s.stack, s.ok⟩
    else if c = backslashChar then ⟨ScanMode.tsstrEsc, s.stack, s.ok⟩
    else ⟨ScanMode.tsstr, s.stack, s.ok⟩
  | ScanMode.tsstrEsc => ⟨ScanMode.tsstr, s.stack, s.ok⟩
  | ScanMode.ts1 =>
    if c = squote then ⟨ScanMode.ts2, s.stack, s.ok⟩
    else if c = backslashChar then ⟨ScanMode.tsstrEsc, s.stack, s.ok⟩
    else ⟨ScanMode.tsstr, s.stack, s.ok⟩
  | ScanMode.ts2 =>
    if c = squote then ⟨ScanMode.norm, s.stack, s.ok⟩
    else if c = backslashChar then ⟨ScanMode.tsstrEsc, s.stack, s.ok⟩
    else ⟨ScanMode.tsstr, s.stack, s.ok⟩
  | ScanMode.dq1 =>
    if c = dquote then ⟨ScanMode.dq2, s.stack, s.ok⟩
    else if c = backslashChar then ⟨ScanMode.dstrEsc, s.stack, s.ok⟩
    else if c = '\n' then ⟨ScanMode.dstr, s.stack, false⟩
    else ⟨ScanMode.dstr, s.stack, s.ok⟩
  | ScanMode.dq2 =>
    if c = dquote then ⟨ScanMode.tdstr, s.stack, s.ok⟩
    else normStep s.stack s.ok c
  | ScanMode.dstr =>
    if c = dquote then ⟨ScanMode.norm, s.stack, s.ok⟩
    else if c = backslashChar then ⟨ScanMode.dstrEsc, s.stack, s.ok⟩
    else if c = '\n' then ⟨ScanMode.dstr, s.stack, false⟩
    else ⟨ScanMode.dstr, s.stack, s.ok⟩
  | ScanMode.dstrEsc => ⟨ScanMode.dstr, s.stack, s.ok⟩
  | ScanMode.tdstr =>
    if c = dquote then ⟨ScanMode.td1, s.stack, s.ok⟩
    else if c = backslashChar then ⟨ScanMode.tdstrEsc, s.stack, s.ok⟩
    else ⟨ScanMode.tdstr, s.stack, s.ok⟩
  | ScanMode.tdstrEsc => ⟨ScanMode.tdstr, s.stack, s.ok⟩
  | ScanMode.td1 =>
    if c = dquote then ⟨ScanMode.td2, s.stack, s.ok⟩
    else if c = backslashChar then ⟨ScanMode.tdstrEsc, s.stack, s.ok⟩
    else ⟨ScanMode.tdstr, s.stack, s.ok⟩
  | ScanMode.td2 =>
    if c = dquote then ⟨ScanMode.norm, s.stack, s.ok⟩
    else if c = backslashChar then ⟨ScanMode.tdstrEsc, s.stack, s.ok⟩
    else ⟨ScanMode.tdstr, s.stack, s.ok⟩

/-- Run the scanner over a character list. -/
def scanList (s : ScanSt) (l : List Char) : ScanSt :=
  l.foldl scanStep s

/-- The initial scanner state. -/
def initSt : ScanSt := ⟨ScanMode.norm, [], true⟩

/-- Accepting final states: no pending error, empty bracket stack, and the
scan ends in code, in a comment, or right after a completed empty string. -/
def accepts (s : ScanSt) : Bool :=
  s.ok && s.stack.isEmpty &&
    (s.mode == ScanMode.norm || s.mode == ScanMode.comment ||
     s.mode == ScanMode.sq2 || s.mode == ScanMode.dq2)

/-- Modelled from the spec: the Validator (`compile(code, '<string>', 'exec')`
in the source, a facility of the Python runtime, absent from this
repository).  A decidable necessary condition of Python's grammar: quotes
well terminated, no raw newline inside single-line strings, brackets
balanced and correctly nested, comments ignored. -/
def basicSyntaxOk (l : List Char) : Bool :=
  accepts (scanList initSt l)

/-! ### Template Provider -/

/-- Join character lists with newlines, as `"\n".join` does; used both for
the template lines and for the README parts. -/
def joinWithNewlines : List (List Char) → List Char
  | [] => []
  | [x] => x
  | x :: xs => x ++ '\n' :: joinWithNewlines xs

/-- The lines of the `template` string literal of
`create_working_fastapi_app` (lines 28-122 of the source), transcribed
byte-for-byte. -/
def templateLines : List String := [
  "from fastapi import FastAPI, HTTPException",
  "from pydantic import BaseModel",
  "from typing import List, Optional",
  "import uuid",
  "",
  "app = FastAPI(",
  "    title=\"Task Manager API\",",
  "    description=\"A simple task management API\",",
  "    version=\"1.0.0\"",
  ")",
  "",
  "# Data Models",
  "class TaskBase(BaseModel):",
  "    title: str",
  "    description: Optional[str] = None",
  "",
  "class TaskCreate(TaskBase):",
  "    pass",
  "",
  "class TaskUpdate(TaskBase):",
  "    completed: Optional[bool] = None",
  "",
  "class Task(TaskBase):",
  "    id: str",
  "    completed: bool = False",
  "",
  "# In-memory storage (replace with database in production)",
  "tasks_db = \x7b\x7d",
  "",
  "@app.get(\"/\")",
  "async def root():",
  "    return \x7b\"message\": \"Welcome to Task Manager API\", \"docs\": \"/docs\"\x7d",
  "",
  "@app.get(\"/tasks\", response_model=List[Task])",
  "async def get_all_tasks():",
  "    \"\"\"Get all tasks\"\"\"",
  "    return list(tasks_db.values())",
  "",
  "@app.post(\"/tasks\", response_model=Task)",
  "async def create_task(task: TaskCreate):",
  "    \"\"\"Create a new task\"\"\"",
  "    task_id = str(uuid.uuid4())",
  "    new_task = Task(",
  "        id=task_id,",
  "        title=task.title,",
  "        description=task.description,",
  "        completed=False",
  "    )",
  "    tasks_db[task_id] = new_task",
  "    return new_task",
  "",
  "@app.get(\"/tasks/\x7btask_id\x7d\", response_model=Task)",
  "async def get_task(task_id: str):",
  "    \"\"\"Get a specific task by ID\"\"\"",
  "    if task_id not in tasks_db:",
  "        raise HTTPException(status_code=404, detail=\"Task not found\")",
  "    return tasks_db[task_id]",
  "",
  "@app.put(\"/tasks/\x7btask_id\x7d\", response_model=Task)",
  "async def update_task(task_id: str, task_update: TaskUpdate):",
  "    \"\"\"Update a specific task\"\"\"",
  "    if task_id not in tasks_db:",
  "        raise HTTPException(status_code=404, detail=\"Task not found\")",
  "",
  "    stored_task = tasks_db[task_id]",
  "    stored_task.title = task_update.title",
  "    if task_update.description is not None:",
  "        stored_task.description = task_update.description",
  "    if task_update.completed is not None:",
  "        stored_task.completed = task_update.completed",
  "",
  "    return stored_task",
  "",
  "@app.delete(\"/tasks/\x7btask_id\x7d\")",
  "async def delete_task(task_id: str):",
  "    \"\"\"Delete a specific task\"\"\"",
  "    if task_id not in tasks_db:",
  "        raise HTTPException(status_code=404, detail=\"Task not found\")",
  "",
  "    del tasks_db[task_id]",
  "    return \x7b\"message\": \"Task deleted successfully\"\x7d",
  "",
  "@app.get(\"/tasks/status/completed\", response_model=List[Task])",
  "async def get_completed_tasks():",
  "    \"\"\"Get all completed tasks\"\"\"",
  "    return [task for task in tasks_db.values() if task.completed]",
  "",
  "@app.get(\"/tasks/status/pending\", response_model=List[Task])",
  "async def get_pending_tasks():",
  "    \"\"\"Get all pending tasks\"\"\"",
  "    return [task for task in tasks_db.values() if not task.completed]",
  "",
  "if __name__ == \"__main__\":",
  "    import uvicorn",
  "    uvicorn.run(app, host=\"0.0.0.0\", port=8000)"
]

/-- The full template text: the lines joined by newlines, plus the final
newline preceding the closing `'''` of the Python literal. -/
def fastapiTemplate : List Char :=
  joinWithNewlines (templateLines.map String.toList) ++ ['\n']

/-- Source lines 25-124, `create_working_fastapi_app`: ignores its requirements
argument and returns the fixed template. -/
def create_working_fastapi_app (_requirements : List Char) : List Char :=
  fastapiTemplate

/-- Scan a list of lines, each followed by a newline (the shape of the
template text, whose literal ends in a newline). -/
def scanLinesNl : ScanSt → List (List Char) → ScanSt
  | s, [] => s
  | s, x :: xs => scanLinesNl (scanStep (scanList s x) '\n') xs

theorem scanList_append (s : ScanSt) (a b : List Char) :
    scanList s (a ++ b) = scanList (scanList s a) b := by
  simp [scanList, List.foldl_append]

theorem scanList_join (xs : List (List Char)) (x : List Char) (s : ScanSt) :
    scanList s (joinWithNewlines (x :: xs) ++ ['\n']) = scanLinesNl s (x :: xs) := by
  induction xs generalizing x s with
  | nil => simp [joinWithNewlines, scanLinesNl, scanList_append, scanList]
  | cons y ys ih =>
    have h1 : joinWithNewlines (x :: y :: ys) = x ++ '\n' :: joinWithNewlines (y :: ys) := rfl
    have h2 : (x ++ '\n' :: joinWithNewlines (y :: ys)) ++ ['\n']
        = x ++ '\n' :: (joinWithNewlines (y :: ys) ++ ['\n']) := by simp
    rw [h1, h2, scanList_append]
    have h3 : scanList (scanList s x) ('\n' :: (joinWithNewlines (y :: ys) ++ ['\n']))
        = scanList (scanStep (scanList s x) '\n') (joinWithNewlines (y :: ys) ++ ['\n']) := rfl
    rw [h3, ih]
    rfl

/-! Evaluation of the scanner on the template, line by line. -/

theorem tmplStep0 :
    scanStep (scanList (ScanSt.mk ScanMode.norm [] true) (("from fastapi import FastAPI, HTTPException").toList)) '\n' = (ScanSt.mk ScanMode.norm [] true) := by decide

theorem tmplStep1 :
    scanStep (scanList (ScanSt.mk ScanMode.norm [] true) (("from pydantic import BaseModel").toList)) '\n' = (ScanSt.mk ScanMode.norm [] true) := by decide

theorem tmplStep2 :
    scanStep (scanList (ScanSt.mk ScanMode.norm [] true) (("from typing import List, Optional").toList)) '\n' = (ScanSt.mk ScanMode.norm [] true) := by decide

theorem tmplStep3 :
    scanStep (scanList (ScanSt.mk ScanMode.norm [] true) (("import uuid").toList)) '\n' = (ScanSt.mk ScanMode.norm [] true) := by decide

theorem tmplStep4 :
    scanStep (scanList (ScanSt.mk ScanMode.norm [] true) (("").toList)) '\n' = (ScanSt.mk ScanMode.norm [] true) := by decide

theorem tmplStep5 :
    scanStep (scanList (ScanSt.mk ScanMode.norm [] true) (("app = FastAPI(").toList)) '\n' = (ScanSt.mk ScanMode.norm ['('] true) := by decide

theorem tmplStep6 :
    scanStep (scanList (ScanSt.mk ScanMode.norm ['('] true) (("    title=\"Task Manager API\",").toList)) '\n' = (ScanSt.mk ScanMode.norm ['('] true) := by decide

theorem tmplStep7 :
    scanStep (scanList (ScanSt.mk ScanMode.norm ['('] true) (("    description=\"A simple task management API\",").toList)) '\n' = (ScanSt.mk ScanMode.norm ['('] true) := by decide

theorem tmplStep8 :
    scanStep (scanList (ScanSt.mk ScanMode.norm ['('] true) (("    version=\"1.0.0\"").toList)) '\n' = (ScanSt.mk ScanMode.norm ['('] true) := by decide

theorem tmplStep9 :
    scanStep (scanList (ScanSt.mk ScanMode.norm ['('] true) ((")").toList)) '\n' = (ScanSt.mk ScanMode.norm [] true) := by decide

theorem tmplStep10 :
    scanStep (scanList (ScanSt.mk ScanMode.norm [] true) (("# Data Models").toList)) '\n' = (ScanSt.mk ScanMode.norm [] true) := by decide

theorem tmplStep11 :
    scanStep (scanList (ScanSt.mk ScanMode.norm [] true) (("class TaskBase(BaseModel):").toList)) '\n' = (ScanSt.mk ScanMode.norm [] true) := by decide

theorem tmplStep12 :
    scanStep (scanList (ScanSt.mk ScanMode.norm [] true) (("    title: str").toList)) '\n' = (ScanSt.mk ScanMode.norm [] true) := by decide

theorem tmplStep13 :
    scanStep (scanList (ScanSt.mk ScanMode.norm [] true) (("    description: Optional[str] = None").toList)) '\n' = (ScanSt.mk ScanMode.norm [] true) := by decide

theorem tmplStep14 :
    scanStep (scanList (ScanSt.mk ScanMode.norm [] true) (("class TaskCreate(TaskBase):").toList)) '\n' = (ScanSt.mk ScanMode.norm [] true) := by decide

theorem tmplStep15 :
    scanStep (scanList (ScanSt.mk ScanMode.norm [] true) (("    pass").toList)) '\n' = (ScanSt.mk ScanMode.norm [] true) := by decide

theorem tmplStep16 :
    scanStep (scanList (ScanSt.mk ScanMode.norm [] true) (("class TaskUpdate(TaskBase):").toList)) '\n' = (ScanSt.mk ScanMode.norm [] true) := by decide

theorem tmplStep17 :
    scanStep (scanList (ScanSt.mk ScanMode.norm [] true) (("    completed: Optional[bool] = None").toList)) '\n' = (ScanSt.mk ScanMode.norm [] true) := by decide

theorem tmplStep18 :
    scanStep (scanList (ScanSt.mk ScanMode.norm [] true) (("class Task(TaskBase):").toList)) '\n' = (ScanSt.mk ScanMode.norm [] true) := by decide

theorem tmplStep19 :
    scanStep (scanList (ScanSt.mk ScanMode.norm [] true) (("    id: str").toList)) '\n' = (ScanSt.mk ScanMode.norm [] true) := by decide

theorem tmplStep20 :
    scanStep (scanList (ScanSt.mk ScanMode.norm [] true) (("    completed: bool = False").toList)) '\n' = (ScanSt.mk ScanMode.norm [] true) := by decide

theorem tmplStep21 :
    scanStep (scanList (ScanSt.mk ScanMode.norm [] true) (("# In-memory storage (replace with database in production)").toList)) '\n' = (ScanSt.mk ScanMode.norm [] true) := by decide

theorem tmplStep22 :
    scanStep (scanList (ScanSt.mk ScanMode.norm [] true) (("tasks_db = \x7b\x7d").toList)) '\n' = (ScanSt.mk ScanMode.norm [] true) := by decide

theorem tmplStep23 :
    scanStep (scanList (ScanSt.mk ScanMode.norm [] true) (("@app.get(\"/\")").toList)) '\n' = (ScanSt.mk ScanMode.norm [] true) := by decide

theorem tmplStep24 :
    scanStep (scanList (ScanSt.mk ScanMode.norm [] true) (("async def root():").toList)) '\n' = (ScanSt.mk ScanMode.norm [] true) := by decide

theorem tmplStep25 :
    scanStep (scanList (ScanSt.mk ScanMode.norm [] true) (("    return \x7b\"message\": \"Welcome to Task Manager API\", \"docs\": \"/docs\"\x7d").toList)) '\n' = (ScanSt.mk ScanMode.norm [] true) := by decide

theorem tmplStep26 :
    scanStep (scanList (ScanSt.mk ScanMode.norm [] true) (("@app.get(\"/tasks\", response_model=List[Task])").toList)) '\n' = (ScanSt.mk ScanMode.norm [] true) := by decide

theorem tmplStep27 :
    scanStep (scanList (ScanSt.mk ScanMode.norm [] true) (("async def get_all_tasks():").toList)) '\n' = (ScanSt.mk ScanMode.norm [] true) := by decide

theorem tmplStep28 :
    scanStep (scanList (ScanSt.mk ScanMode.norm [] true) (("    \"\"\"Get all tasks\"\"\"").toList)) '\n' = (ScanSt.mk ScanMode.norm [] true) := by decide

theorem tmplStep29 :
    scanStep (scanList (ScanSt.mk ScanMode.norm [] true) (("    return list(tasks_db.values())").toList)) '\n' = (ScanSt.mk ScanMode.norm [] true) := by decide

theorem tmplStep30 :
    scanStep (scanList (ScanSt.mk ScanMode.norm [] true) (("@app.post(\"/tasks\", response_model=Task)").toList)) '\n' = (ScanSt.mk ScanMode.norm [] true) := by decide

theorem tmplStep31 :
    scanStep (scanList (ScanSt.mk ScanMode.norm [] true) (("async def create_task(task: TaskCreate):").toList)) '\n' = (ScanSt.mk ScanMode.norm [] true) := by decide

theorem tmplStep32 :
    scanStep (scanList (ScanSt.mk ScanMode.norm [] true) (("    \"\"\"Create a new task\"\"\"").toList)) '\n' = (ScanSt.mk ScanMode.norm [] true) := by decide

theorem tmplStep33 :
    scanStep (scanList (ScanSt.mk ScanMode.norm [] true) (("    task_id = str(uuid.uuid4())").toList)) '\n' = (ScanSt.mk ScanMode.norm [] true) := by decide

theorem tmplStep34 :
    scanStep (scanList (ScanSt.mk ScanMode.norm [] true) (("    new_task = Task(").toList)) '\n' = (ScanSt.mk ScanMode.norm ['('] true) := by decide

theorem tmplStep35 :
    scanStep (scanList (ScanSt.mk ScanMode.norm ['('] true) (("        id=task_id,").toList)) '\n' = (ScanSt.mk ScanMode.norm ['('] true) := by decide

theorem tmplStep36 :
    scanStep (scanList (ScanSt.mk ScanMode.norm ['('] true) (("        title=task.title,").toList)) '\n' = (ScanSt.mk ScanMode.norm ['('] true) := by decide

theorem tmplStep37 :
    scanStep (scanList (ScanSt.mk ScanMode.norm ['('] true) (("        description=task.description,").toList)) '\n' = (ScanSt.mk ScanMode.norm ['('] true) := by decide

theorem tmplStep38 :
    scanStep (scanList (ScanSt.mk ScanMode.norm ['('] true) (("        completed=False").toList)) '\n' = (ScanSt.mk ScanMode.norm ['('] true) := by decide

theorem tmplStep39 :
    scanStep (scanList (ScanSt.mk ScanMode.norm ['('] true) (("    )").toList)) '\n' = (ScanSt.mk ScanMode.norm [] true) := by decide

theorem tmplStep40 :
    scanStep (scanList (ScanSt.mk ScanMode.norm [] true) (("    tasks_db[task_id] = new_task").toList)) '\n' = (ScanSt.mk ScanMode.norm [] true) := by decide

theorem tmplStep41 :
    scanStep (scanList (ScanSt.mk ScanMode.norm [] true) (("    return new_task").toList)) '\n' = (ScanSt.mk ScanMode.norm [] true) := by decide

theorem tmplStep42 :
    scanStep (scanList (ScanSt.mk ScanMode.norm [] true) (("@app.get(\"/tasks/\x7btask_id\x7d\", response_model=Task)").toList)) '\n' = (ScanSt.mk ScanMode.norm [] true) := by decide

theorem tmplStep43 :
    scanStep (scanList (ScanSt.mk ScanMode.norm [] true) (("async def get_task(task_id: str):").toList)) '\n' = (ScanSt.mk ScanMode.norm [] true) := by decide

theorem tmplStep44 :
    scanStep (scanList (ScanSt.mk ScanMode.norm [] true) (("    \"\"\"Get a specific task by ID\"\"\"").toList)) '\n' = (ScanSt.mk ScanMode.norm [] true) := by decide

theorem tmplStep45 :
    scanStep (scanList (ScanSt.mk ScanMode.norm [] true) (("    if task_id not in tasks_db:").toList)) '\n' = (ScanSt.mk ScanMode.norm [] true) := by decide

theorem tmplStep46 :
    scanStep (scanList (ScanSt.mk ScanMode.norm [] true) (("        raise HTTPException(status_code=404, detail=\"Task not found\")").toList)) '\n' = (ScanSt.mk ScanMode.norm [] true) := by decide

theorem tmplStep47 :
    scanStep (scanList (ScanSt.mk ScanMode.norm [] true) (("    return tasks_db[task_id]").toList)) '\n' = (ScanSt.mk ScanMode.norm [] true) := by decide

theorem tmplStep48 :
    scanStep (scanList (ScanSt.mk ScanMode.norm [] true) (("@app.put(\"/tasks/\x7btask_id\x7d\", response_model=Task)").toList)) '\n' = (ScanSt.mk ScanMode.norm [] true) := by decide

theorem tmplStep49 :
    scanStep (scanList (ScanSt.mk ScanMode.norm [] true) (("async def update_task(task_id: str, task_update: TaskUpdate):").toList)) '\n' = (ScanSt.mk ScanMode.norm [] true) := by decide

theorem tmplStep50 :
    scanStep (scanList (ScanSt.mk ScanMode.norm [] true) (("    \"\"\"Update a specific task\"\"\"").toList)) '\n' = (ScanSt.mk ScanMode.norm [] true) := by decide

theorem tmplStep51 :
    scanStep (scanList (ScanSt.mk ScanMode.norm [] true) (("    stored_task = tasks_db[task_id]").toList)) '\n' = (ScanSt.mk ScanMode.norm [] true) := by decide

theorem tmplStep52 :
    scanStep (scanList (ScanSt.mk ScanMode.norm [] true) (("    stored_task.title = task_update.title").toList)) '\n' = (ScanSt.mk ScanMode.norm [] true) := by decide

theorem tmplStep53 :
    scanStep (scanList (ScanSt.mk ScanMode.norm [] true) (("    if task_update.description is not None:").toList)) '\n' = (ScanSt.mk ScanMode.norm [] true) := by decide

theorem tmplStep54 :
    scanStep (scanList (ScanSt.mk ScanMode.norm [] true) (("        stored_task.description = task_update.description").toList)) '\n' = (ScanSt.mk ScanMode.norm [] true) := by decide

theorem tmplStep55 :
    scanStep (scanList (ScanSt.mk ScanMode.norm [] true) (("    if task_update.completed is not None:").toList)) '\n' = (ScanSt.mk ScanMode.norm [] true) := by decide

theorem tmplStep56 :
    scanStep (scanList (ScanSt.mk ScanMode.norm [] true) (("        stored_task.completed = task_update.completed").toList)) '\n' = (ScanSt.mk ScanMode.norm [] true) := by decide

theorem tmplStep57 :
    scanStep (scanList (ScanSt.mk ScanMode.norm [] true) (("    return stored_task").toList)) '\n' = (ScanSt.mk ScanMode.norm [] true) := by decide

theorem tmplStep58 :
    scanStep (scanList (ScanSt.mk ScanMode.norm [] true) (("@app.delete(\"/tasks/\x7btask_id\x7d\")").toList)) '\n' = (ScanSt.mk ScanMode.norm [] true) := by decide

theorem tmplStep59 :
    scanStep (scanList (ScanSt.mk ScanMode.norm [] true) (("async def delete_task(task_id: str):").toList)) '\n' = (ScanSt.mk ScanMode.norm [] true) := by decide

theorem tmplStep60 :
    scanStep (scanList (ScanSt.mk ScanMode.norm [] true) (("    \"\"\"Delete a specific task\"\"\"").toList)) '\n' = (ScanSt.mk ScanMode.norm [] true) := by decide

theorem tmplStep61 :
    scanStep (scanList (ScanSt.mk ScanMode.norm [] true) (("    del tasks_db[task_id]").toList)) '\n' = (ScanSt.mk ScanMode.norm [] true) := by decide

theorem tmplStep62 :
    scanStep (scanList (ScanSt.mk ScanMode.norm [] true) (("    return \x7b\"message\": \"Task deleted successfully\"\x7d").toList)) '\n' = (ScanSt.mk ScanMode.norm [] true) := by decide

theorem tmplStep63 :
    scanStep (scanList (ScanSt.mk ScanMode.norm [] true) (("@app.get(\"/tasks/status/completed\", response_model=List[Task])").toList)) '\n' = (ScanSt.mk ScanMode.norm [] true) := by decide

theorem tmplStep64 :
    scanStep (scanList (ScanSt.mk ScanMode.norm [] true) (("async def get_completed_tasks():").toList)) '\n' = (ScanSt.mk ScanMode.norm [] true) := by decide

theorem tmplStep65 :
    scanStep (scanList (ScanSt.mk ScanMode.norm [] true) (("    \"\"\"Get all completed tasks\"\"\"").toList)) '\n' = (ScanSt.mk ScanMode.norm [] true) := by decide

theorem tmplStep66 :
    scanStep (scanList (ScanSt.mk ScanMode.norm [] true) (("    return [task for task in tasks_db.values() if task.completed]").toList)) '\n' = (ScanSt.mk ScanMode.norm [] true) := by decide

theorem tmplStep67 :
    scanStep (scanList (ScanSt.mk ScanMode.norm [] true) (("@app.get(\"/tasks/status/pending\", response_model=List[Task])").toList)) '\n' = (ScanSt.mk ScanMode.norm [] true) := by decide

theorem tmplStep68 :
    scanStep (scanList (ScanSt.mk ScanMode.norm [] true) (("async def get_pending_tasks():").toList)) '\n' = (ScanSt.mk ScanMode.norm [] true) := by decide

theorem tmplStep69 :
    scanStep (scanList (ScanSt.mk ScanMode.norm [] true) (("    \"\"\"Get all pending tasks\"\"\"").toList)) '\n' = (ScanSt.mk ScanMode.norm [] true) := by decide

theorem tmplStep70 :
    scanStep (scanList (ScanSt.mk ScanMode.norm [] true) (("    return [task for task in tasks_db.values() if not task.completed]").toList)) '\n' = (ScanSt.mk ScanMode.norm [] true) := by decide

theorem tmplStep71 :
    scanStep (scanList (ScanSt.mk ScanMode.norm [] true) (("if __name__ == \"__main__\":").toList)) '\n' = (ScanSt.mk ScanMode.norm [] true) := by decide

theorem tmplStep72 :
    scanStep (scanList (ScanSt.mk ScanMode.norm [] true) (("    import uvicorn").toList)) '\n' = (ScanSt.mk ScanMode.norm [] true) := by decide

theorem tmplStep73 :
    scanStep (scanList (ScanSt.mk ScanMode.norm [] true) (("    uvicorn.run(app, host=\"0.0.0.0\", port=8000)").toList)) '\n' = (ScanSt.mk ScanMode.norm [] true) := by decide

theorem scanLinesNl_template :
    scanLinesNl initSt (templateLines.map String.toList) = ScanSt.mk ScanMode.norm [] true := by
  simp only [initSt, templateLines, List.map_cons, List.map_nil, scanLinesNl,
    tmplStep0, tmplStep1, tmplStep2, tmplStep3, tmplStep4, tmplStep5, tmplStep6, tmplStep7, tmplStep8, tmplStep9, tmplStep10, tmplStep11, tmplStep12, tmplStep13, tmplStep14, tmplStep15, tmplStep16, tmplStep17, tmplStep18, tmplStep19, tmplStep20, tmplStep21, tmplStep22, tmplStep23, tmplStep24, tmplStep25, tmplStep26, tmplStep27, tmplStep28, tmplStep29, tmplStep30, tmplStep31, tmplStep32, tmplStep33, tmplStep34, tmplStep35, tmplStep36, tmplStep37, tmplStep38, tmplStep39, tmplStep40, tmplStep41, tmplStep42, tmplStep43, tmplStep44, tmplStep45, tmplStep46, tmplStep47, tmplStep48, tmplStep49, tmplStep50, tmplStep51, tmplStep52, tmplStep53, tmplStep54, tmplStep55, tmplStep56, tmplStep57, tmplStep58, tmplStep59, tmplStep60, tmplStep61, tmplStep62, tmplStep63, tmplStep64, tmplStep65, tmplStep66, tmplStep67, tmplStep68, tmplStep69, tmplStep70, tmplStep71, tmplStep72, tmplStep73]

theorem basicSyntaxOk_fastapiTemplate : basicSyntaxOk fastapiTemplate = true := by
  have h : templateLines.map String.toList
      = (("from fastapi import FastAPI, HTTPException").toList)
        :: (templateLines.drop 1).map String.toList := rfl
  rw [basicSyntaxOk, fastapiTemplate, h, scanList_join, ← h, scanLinesNl_template]
  decide

/-! ### Enhancement Orchestrator -/

/-- The f-string prompt of `enhance_with_llm` (lines 128-141). -/
def prompt (base_code requirements : List Char) : List Char :=
  ("Take this working FastAPI code and enhance it based on these requirements: ").toList
  ++ requirements
  ++ ("\n\nEXISTING CODE:\n").toList
  ++ base_code
  ++ ("\n\nINSTRUCTIONS:\n- Keep all existing functionality working\n- Add any additional endpoints or features mentioned in requirements\n- Maintain the same code structure and style\n- Return ONLY the complete Python code\n- Do not add explanations or markdown\n- Ensure all syntax is valid Python\n\nENHANCED CODE:").toList

/-- Source lines 126-174, `enhance_with_llm`.  The model call is an input
(`llm`, error = any exception raised by `self.llm.invoke`, caught by the
outer `except Exception`); the Validator (`compile`) is an input
(`validate`, `false` = `SyntaxError`, caught by the inner `except`).  The
function is total — every failure path returns `base_code` and no exception
reaches the caller. -/
def enhance_with_llm (validate : List Char → Bool)
    (llm : List Char → Except (List Char) (List Char))
    (base_code requirements : List Char) : List Char :=
  match llm (prompt base_code requirements) with
  | Except.error _ => base_code
  | Except.ok response =>
    let enhanced_code := sanitize response
    if validate enhanced_code then enhanced_code else base_code

/-! ### Project Materializer -/

/-- The `requirements_txt` literal (lines 197-201). -/
def requirementsTxt : List Char :=
  ("fastapi>=0.104.0\nuvicorn>=0.24.0\npydantic>=2.0.0\npython-multipart>=0.0.6\n").toList

/-- The `readme_parts` list (lines 207-244), transcribed element by
element. -/
def readmeParts (project_name requirements : List Char) : List (List Char) :=
  [("# ").toList ++ project_name,
   ("").toList,
   requirements,
   ("").toList,
   ("## Features").toList,
   ("").toList,
   ("- Task CRUD operations").toList,
   ("- RESTful API design").toList,
   ("- Automatic API documentation").toList,
   ("- Input validation with Pydantic").toList,
   ("- Error handling").toList,
   ("").toList,
   ("## Setup and Run").toList,
   ("").toList,
   ("```bash").toList,
   ("# Install dependencies").toList,
   ("pip install -r requirements.txt").toList,
   ("").toList,
   ("# Run the server").toList,
   ("uvicorn main:app --reload --host 0.0.0.0 --port 8000").toList,
   ("```").toList,
   ("").toList,
   ("## API Documentation").toList,
   ("").toList,
   ("Visit: http://localhost:8000/docs").toList,
   ("").toList,
   ("## Available Endpoints").toList,
   ("").toList,
   ("- `GET /` - Welcome message").toList,
   ("- `GET /tasks` - Get all tasks").toList,
   ("- `POST /tasks` - Create a new task").toList,
   ("- `GET /tasks/\x7btask_id\x7d` - Get specific task").toList,
   ("- `PUT /tasks/\x7btask_id\x7d` - Update task").toList,
   ("- `DELETE /tasks/\x7btask_id\x7d` - Delete task").toList,
   ("- `GET /tasks/status/completed` - Get completed tasks").toList,
   ("- `GET /tasks/status/pending` - Get pending tasks").toList]

/-- Line 245: `readme_content = "\n".join(readme_parts)`. -/
def readmeContent (project_name requirements : List Char) : List Char :=
  joinWithNewlines (readmeParts project_name requirements)

/-- The filesystem: an association list from paths to file contents; a
write prepends, a read takes the most recent entry. -/
abbrev FS := List (List Char × List Char)

/-- Write (create or overwrite) a file. -/
def writeFile (fs : FS) (path content : List Char) : FS :=
  (path, content) :: fs

/-- Read a file, if present. -/
def fileAt (fs : FS) (path : List Char) : Option (List Char) :=
  List.lookup path fs

/-- The `Path` of line 182: the string `output/` followed by the project
name. -/
def projectPathOf (project_name : List Char) : List Char :=
  ("output/").toList ++ project_name

/-- The path `project_path / "main.py"`. -/
def mainPyPath (project_path : List Char) : List Char :=
  project_path ++ ("/main.py").toList

/-- The path `project_path / "requirements.txt"`. -/
def reqTxtPath (project_path : List Char) : List Char :=
  project_path ++ ("/requirements.txt").toList

/-- The path `project_path / "README.md"`. -/
def readmePath (project_path : List Char) : List Char :=
  project_path ++ ("/README.md").toList

/-! ### Smoke Tester -/

/-- What `test_project` prints at the end of each of its paths: a syntax
error from `except SyntaxError` at line 290; any other exception — reading,
venv creation, pip install — from `except Exception` at line 292; a warning
for a failed module-load subprocess at line 288; or full success. -/
inductive TestOutcome
  | syntaxError
  | testError (msg : List Char)
  | importWarn (stderr : List Char)
  | passed
deriving DecidableEq

/-- Outcomes of the environment-dependent steps of `test_project`: reading
`main.py` back, `python3 -m venv` (`check=True`), `pip install`
(`check=True`), and the import subprocess's return code and stderr. -/
structure TestEnv where
  readMainErr : Option (List Char)
  venvErr : Option (List Char)
  pipErr : Option (List Char)
  importRc : Int
  importStderr : List Char

/-- Source lines 256-293, `test_project`.  Total; every failure of a step becomes
a `TestOutcome` (a printed warning in the source), never an exception to the
caller.  Steps in source order: read `main.py`, `compile` it, create the
venv, install requirements, run the import check. -/
def test_project (validate : List Char → Bool) (t : TestEnv) (fs : FS)
    (project_path : List Char) : TestOutcome :=
  match t.readMainErr with
  | some msg => TestOutcome.testError msg
  | none =>
    let code := (fileAt fs (mainPyPath project_path)).getD []
    if validate code then
      match t.venvErr with
      | some msg => TestOutcome.testError msg
      | none =>
        match t.pipErr with
        | some msg => TestOutcome.testError msg
        | none =>
          if t.importRc = 0 then TestOutcome.passed
          else TestOutcome.importWarn t.importStderr
    else TestOutcome.syntaxError

/-! ### create_project and main -/

/-- The external collaborators of `create_project` other than the smoke
test: the model client, the Validator, and the outcomes of the four
filesystem operations (`mkdir`, and the three `open(...,"w")`/`write`
calls); `some msg` means the operation raises. -/
structure GenEnv where
  llm : List Char → Except (List Char) (List Char)
  validate : List Char → Bool
  mkdirErr : Option (List Char)
  writeMainErr : Option (List Char)
  writeReqErr : Option (List Char)
  writeReadmeErr : Option (List Char)

/-- Source lines 176-254, `create_project`.  No `try/except` anywhere in it: a
failing filesystem operation propagates (`Except.error`).  On success
returns the filesystem, the smoke-test outcome, and `str(project_path)`. -/
def create_project (env : GenEnv) (t : TestEnv) (fs : FS)
    (requirements project_name : List Char) :
    Except (List Char) (FS × TestOutcome × List Char) :=
  let project_path := projectPathOf project_name
  match env.mkdirErr with
  | some e => Except.error e
  | none =>
    let base_code := create_working_fastapi_app requirements
    let final_code := enhance_with_llm env.validate env.llm base_code requirements
    match env.writeMainErr with
    | some e => Except.error e
    | none =>
      let fs1 := writeFile fs (mainPyPath project_path) final_code
      match env.writeReqErr with
      | some e => Except.error e
      | none =>
        let fs2 := writeFile fs1 (reqTxtPath project_path) requirementsTxt
        match env.writeReadmeErr with
        | some e => Except.error e
        | none =>
          let fs3 := writeFile fs2 (readmePath project_path)
            (readmeContent project_name requirements)
          let outcome := test_project env.validate t fs3 project_path
          Except.ok (fs3, outcome, project_path)

/-- The hardcoded requirements text of `main` (lines 299-305). -/
def mainRequirements : List Char :=
  ("\n    Task manager API with full CRUD operations:\n    - Create, read, update, delete tasks\n    - Each task has: id, title, description, completed status\n    - Filter tasks by completion status\n    - RESTful design with proper HTTP methods\n    ").toList

/-- Source lines 296-313, `main`: no `try/except`; calls `create_project` with the
hardcoded requirements and project name `robust_task_manager`. -/
def main_run (env : GenEnv) (t : TestEnv) (fs : FS) :
    Except (List Char) (FS × TestOutcome × List Char) :=
  create_project env t fs mainRequirements (("robust_task_manager").toList)

/-- The process exit status: a normal return from `main` exits 0; an
uncaught exception (modelled by `Except.error`) makes the interpreter exit
with status 1. -/
def mainExitCode (env : GenEnv) (t : TestEnv) (fs : FS) : Nat :=
  match main_run env t fs with
  | Except.ok _ => 0
  | Except.error _ => 1

/-- Split a text into lines at newline characters. -/
def splitLines : List Char → List (List Char)
  | [] => [[]]
  | c :: cs =>
    if c = '\n' then [] :: splitLines cs
    else
      match splitLines cs with
      | [] => [[c]]
      | l :: ls => (c :: l) :: ls

/-- The non-empty lines of a manifest text: its entries. -/
def manifestEntries (s : List Char) : List (List Char) :=
  (splitLines s).filter (fun l => !l.isEmpty)

/-! ### Helper lemmas about the sanitizer -/

theorem stripRight_cons_cons (c : Char) (cs : List Char) (x : Char) (xs : List Char)
    (h : stripRight cs = x :: xs) : stripRight (c :: cs) = c :: x :: xs := by
  simp [stripRight, h]

theorem stripRight_idem (l : List Char) : stripRight (stripRight l) = stripRight l := by
  induction l with
  | nil => rfl
  | cons c cs ih =>
    cases h : stripRight cs with
    | nil =>
      by_cases hc : isPySpace c
      · simp [stripRight, h, hc]
      · simp [stripRight, h, hc]
    | cons x xs =>
      rw [h] at ih
      rw [stripRight_cons_cons c cs x xs h]
      exact stripRight_cons_cons c (x :: xs) x xs ih

theorem not_space_head_dropWhile (l : List Char) (c : Char) (cs : List Char)
    (h : l.dropWhile isPySpace = c :: cs) : isPySpace c = false := by
  induction l with
  | nil => simp [List.dropWhile] at h
  | cons a as ih =>
    rw [List.dropWhile_cons] at h
    by_cases ha : isPySpace a
    · simp [ha] at h
      exact ih h
    · simp [ha] at h
      rw [← h.1]
      simp [ha]

theorem stripRight_head (c : Char) (cs : List Char) :
    stripRight (c :: cs) = [] ∨ ∃ r, stripRight (c :: cs) = c :: r := by
  cases h : stripRight cs with
  | nil =>
    by_cases hc : isPySpace c
    · left; simp [stripRight, h, hc]
    · right; exact ⟨[], by simp [stripRight, h, hc]⟩
  | cons x xs =>
    right; exact ⟨x :: xs, by simp [stripRight, h]⟩

theorem dropWhile_pyStrip (l : List Char) :
    (pyStrip l).dropWhile isPySpace = pyStrip l := by
  rw [pyStrip]
  cases h : l.dropWhile isPySpace with
  | nil => simp [h, stripRight]
  | cons c cs =>
    have hc := not_space_head_dropWhile l c cs h
    rcases stripRight_head c cs with he | ⟨r, hr⟩
    · simp [he]
    · rw [hr, List.dropWhile_cons, hc]
      simp

theorem pyStrip_idem (l : List Char) : pyStrip (pyStrip l) = pyStrip l := by
  conv_lhs => rw [pyStrip]
  rw [dropWhile_pyStrip]
  rw [pyStrip, stripRight_idem]

theorem pyStrip_sanitize (s : List Char) : pyStrip (sanitize s) = sanitize s := by
  rw [sanitize, pyStrip_idem]

theorem fence_prefix_of_pyFence (l : List Char)
    (h : pyFenceTag.isPrefixOf l = true) : fenceTag.isPrefixOf l = true := by
  rw [ List.isPrefixOf_iff_prefix] at h ⊢
  exact List.IsPrefix.trans (by decide) h

theorem stripFences_id (l : List Char)
    (hpre : fenceTag.isPrefixOf l = false)
    (hsuf : fenceTag.isSuffixOf l = false) : stripFences l = l := by
  have hpy : pyFenceTag.isPrefixOf l = false := by
    cases hp : pyFenceTag.isPrefixOf l with
    | false => rfl
    | true => rw [fence_prefix_of_pyFence _ hp] at hpre; exact absurd hpre (by simp)
  simp [stripFences, hpy, hpre, hsuf]

/-! ### Claim theorems -/

/-- C1: if the model call raises (connectivity or service fault), or the
sanitized model output fails syntax validation, `enhance_with_llm` returns
exactly the unmodified base template; being a total function of its
(explicit-exception) inputs, it propagates no exception to its caller. -/
theorem enhance_falls_back_on_failure
    (validate : List Char → Bool) (llm : List Char → Except (List Char) (List Char))
    (base_code requirements e r : List Char) :
    (llm (prompt base_code requirements) = Except.error e →
      enhance_with_llm validate llm base_code requirements = base_code)
    ∧ (llm (prompt base_code requirements) = Except.ok r →
      validate (sanitize r) = false →
      enhance_with_llm validate llm base_code requirements = base_code) := by
  constructor
  · intro h
    simp [enhance_with_llm, h]
  · intro h hv
    simp [enhance_with_llm, h, hv]

theorem enhance_falls_back_on_failure_witness :
    enhance_with_llm (fun _ => true)
      (fun _ => Except.error (("connection refused").toList))
      fastapiTemplate (("add auth").toList) = fastapiTemplate :=
  (enhance_falls_back_on_failure (fun _ => true)
    (fun _ => Except.error (("connection refused").toList))
    fastapiTemplate (("add auth").toList) (("connection refused").toList) []).1 rfl

/-- C2: if the sanitized model response passes validation,
`enhance_with_llm` returns that sanitized text, not the base template. -/
theorem enhance_returns_valid_enhancement
    (validate : List Char → Bool) (llm : List Char → Except (List Char) (List Char))
    (base_code requirements r : List Char)
    (hok : llm (prompt base_code requirements) = Except.ok r)
    (hv : validate (sanitize r) = true) :
    enhance_with_llm validate llm base_code requirements = sanitize r := by
  simp [enhance_with_llm, hok, hv]

theorem enhance_returns_valid_enhancement_witness :
    enhance_with_llm (fun _ => true) (fun _ => Except.ok (("x = 1").toList))
      fastapiTemplate (("add auth").toList) = sanitize (("x = 1").toList) :=
  enhance_returns_valid_enhancement (fun _ => true)
    (fun _ => Except.ok (("x = 1").toList)) fastapiTemplate (("add auth").toList)
    (("x = 1").toList) rfl rfl

/-- C3 counterexample: the sanitization transform is not idempotent.  On
`"a" ++ six backticks` it removes only one trailing fence, leaving
`"a" ++ three backticks`, which a second application reduces to `"a"`. -/
theorem sanitize_not_idempotent :
    sanitize (sanitize (("a``````").toList)) ≠ sanitize (("a``````").toList) := by
  decide

/-- C3 amended: the sanitization transform is idempotent on every input
whose sanitized output contains no `<think>...</think>` block and neither
starts nor ends with a ``` fence (the counterexample shows the trailing
fence condition is necessary). -/
theorem sanitize_idempotent_when_stable (s : List Char)
    (hthink : removeThink (sanitize s) = sanitize s)
    (hpre : fenceTag.isPrefixOf (sanitize s) = false)
    (hsuf : fenceTag.isSuffixOf (sanitize s) = false) :
    sanitize (sanitize s) = sanitize s := by
  conv_lhs => rw [sanitize]
  rw [pyStrip_sanitize, hthink, stripFences_id _ hpre hsuf, pyStrip_sanitize]

theorem sanitize_idempotent_when_stable_witness :
    (removeThink (sanitize (("hello world").toList)) = sanitize (("hello world").toList)
      ∧ fenceTag.isPrefixOf (sanitize (("hello world").toList)) = false
      ∧ fenceTag.isSuffixOf (sanitize (("hello world").toList)) = false)
    ∧ sanitize (sanitize (("hello world").toList)) = sanitize (("hello world").toList) :=
  ⟨⟨by decide, by decide, by decide⟩,
    sanitize_idempotent_when_stable (("hello world").toList)
      (by decide) (by decide) (by decide)⟩

/-- C7: `create_working_fastapi_app` returns the same fixed source text for
every requirements string, and that text passes the (modelled) Validator. -/
theorem template_fixed_and_valid (requirements : List Char) :
    create_working_fastapi_app requirements = fastapiTemplate
      ∧ basicSyntaxOk (create_working_fastapi_app requirements) = true :=
  ⟨rfl, basicSyntaxOk_fastapiTemplate⟩

/-- C10: if the model response sanitizes to the empty string, the empty
text passes validation (empty source is syntactically valid), so
`enhance_with_llm` returns the empty string — not the (non-empty) base
template — and the delivered `main.py` can be empty. -/
theorem enhance_empty_when_sanitized_empty
    (llm : List Char → Except (List Char) (List Char)) (requirements r : List Char)
    (hok : llm (prompt fastapiTemplate requirements) = Except.ok r)
    (hempty : sanitize r = []) :
    enhance_with_llm basicSyntaxOk llm fastapiTemplate requirements = []
      ∧ fastapiTemplate ≠ [] := by
  constructor
  · simp only [enhance_with_llm, hok, hempty]
    rfl
  · decide

theorem enhance_empty_when_sanitized_empty_witness :
    enhance_with_llm basicSyntaxOk
      (fun _ => Except.ok ((" <think>reasoning</think> ").toList))
      fastapiTemplate (("add auth").toList) = []
      ∧ fastapiTemplate ≠ [] :=
  enhance_empty_when_sanitized_empty
    (fun _ => Except.ok ((" <think>reasoning</think> ").toList))
    (("add auth").toList) ((" <think>reasoning</think> ").toList) rfl (by decide)

/-! ### Helper lemmas about the filesystem model -/

theorem beq_append_left (a b c : List Char) : ((a ++ b) == (a ++ c)) = (b == c) := by
  by_cases h : b = c
  · subst h; simp
  · have h1 : a ++ b ≠ a ++ c := fun hh => h (List.append_cancel_left hh)
    rw [beq_eq_false_iff_ne.mpr h1, beq_eq_false_iff_ne.mpr h]

theorem fileAt_writeFile_same (fs : FS) (p v : List Char) :
    fileAt (writeFile fs p v) p = some v := by
  simp [fileAt, writeFile, List.lookup]

theorem fileAt_writeFile_ne (fs : FS) (p q v : List Char) (h : (p == q) = false) :
    fileAt (writeFile fs q v) p = fileAt fs p := by
  simp [fileAt, writeFile, List.lookup, h]

theorem mainPy_ne_reqTxt (p : List Char) :
    (mainPyPath p == reqTxtPath p) = false := by
  rw [mainPyPath, reqTxtPath, beq_append_left]; decide

theorem mainPy_ne_readme (p : List Char) :
    (mainPyPath p == readmePath p) = false := by
  rw [mainPyPath, readmePath, beq_append_left]; decide

theorem reqTxt_ne_readme (p : List Char) :
    (reqTxtPath p == readmePath p) = false := by
  rw [reqTxtPath, readmePath, beq_append_left]; decide

/-- The filesystem produced by one successful `create_project` run on top
of `fs`: the three writes of lines 192, 202 and 247, newest first. -/
def mkFs3 (env : GenEnv) (fs : FS) (requirements project_name : List Char) : FS :=
  writeFile
    (writeFile
      (writeFile fs (mainPyPath (projectPathOf project_name))
        (enhance_with_llm env.validate env.llm
          (create_working_fastapi_app requirements) requirements))
      (reqTxtPath (projectPathOf project_name)) requirementsTxt)
    (readmePath (projectPathOf project_name))
    (readmeContent project_name requirements)

theorem fileAt_mkFs3_main (env : GenEnv) (fs : FS) (requirements project_name : List Char) :
    fileAt (mkFs3 env fs requirements project_name)
        (mainPyPath (projectPathOf project_name))
      = some (enhance_with_llm env.validate env.llm
          (create_working_fastapi_app requirements) requirements) := by
  rw [mkFs3, fileAt_writeFile_ne _ _ _ _ (mainPy_ne_readme _),
    fileAt_writeFile_ne _ _ _ _ (mainPy_ne_reqTxt _), fileAt_writeFile_same]

theorem fileAt_mkFs3_reqTxt (env : GenEnv) (fs : FS) (requirements project_name : List Char) :
    fileAt (mkFs3 env fs requirements project_name)
        (reqTxtPath (projectPathOf project_name)) = some requirementsTxt := by
  rw [mkFs3, fileAt_writeFile_ne _ _ _ _ (reqTxt_ne_readme _), fileAt_writeFile_same]

theorem fileAt_mkFs3_readme (env : GenEnv) (fs : FS) (requirements project_name : List Char) :
    fileAt (mkFs3 env fs requirements project_name)
        (readmePath (projectPathOf project_name))
      = some (readmeContent project_name requirements) := by
  rw [mkFs3, fileAt_writeFile_same]

theorem create_project_ok (env : GenEnv) (t : TestEnv) (fs : FS)
    (requirements project_name : List Char)
    (h1 : env.mkdirErr = none) (h2 : env.writeMainErr = none)
    (h3 : env.writeReqErr = none) (h4 : env.writeReadmeErr = none) :
    create_project env t fs requirements project_name
      = Except.ok (mkFs3 env fs requirements project_name,
          test_project env.validate t (mkFs3 env fs requirements project_name)
            (projectPathOf project_name),
          projectPathOf project_name) := by
  simp [create_project, h1, h2, h3, h4, mkFs3]

/-- C5: `create_project` catches nothing: whichever of the four filesystem
operations (directory creation and the three file writes) fails first, the
exception propagates to the caller unchanged. -/
theorem create_project_propagates_fs_errors
    (env : GenEnv) (t : TestEnv) (fs : FS) (requirements project_name e : List Char) :
    (env.mkdirErr = some e →
      create_project env t fs requirements project_name = Except.error e)
    ∧ (env.mkdirErr = none → env.writeMainErr = some e →
      create_project env t fs requirements project_name = Except.error e)
    ∧ (env.mkdirErr = none → env.writeMainErr = none → env.writeReqErr = some e →
      create_project env t fs requirements project_name = Except.error e)
    ∧ (env.mkdirErr = none → env.writeMainErr = none → env.writeReqErr = none →
      env.writeReadmeErr = some e →
      create_project env t fs requirements project_name = Except.error e) := by
  refine ⟨?_, ?_, ?_, ?_⟩
  · intro h1
    simp [create_project, h1]
  · intro h1 h2
    simp [create_project, h1, h2]
  · intro h1 h2 h3
    simp [create_project, h1, h2, h3]
  · intro h1 h2 h3 h4
    simp [create_project, h1, h2, h3, h4]

def permDeniedEnv : GenEnv :=
  ⟨fun _ => Except.error (("service unavailable").toList), fun _ => true,
    some (("permission denied").toList), none, none, none⟩

def permDeniedTest : TestEnv := ⟨none, none, none, 0, []⟩

theorem create_project_propagates_fs_errors_witness :
    permDeniedEnv.mkdirErr = some (("permission denied").toList)
    ∧ create_project permDeniedEnv permDeniedTest [] (("r").toList) (("demo").toList)
        = Except.error (("permission denied").toList) :=
  ⟨rfl, (create_project_propagates_fs_errors permDeniedEnv permDeniedTest []
    (("r").toList) (("demo").toList) (("permission denied").toList)).1 rfl⟩

/-- C4 counterexample: the process does not always exit 0.  When directory
creation fails (e.g. permission denied), no handler catches the exception
and the interpreter terminates with status 1. -/
def mkdirFailEnv : GenEnv :=
  ⟨fun _ => Except.error (("unreachable").toList), fun _ => true,
    some (("disk full").toList), none, none, none⟩

def mkdirFailTest : TestEnv := ⟨none, none, none, 0, []⟩

theorem main_exit_nonzero_on_fs_fault :
    mainExitCode mkdirFailEnv mkdirFailTest [] ≠ 0 := by decide

/-- C4 amended: the process exits 0 whenever directory creation and the
three file writes succeed — model-call failures, validation failures and
every smoke-test failure are downgraded to printed warnings — but an
uncaught filesystem error terminates the process with a nonzero status. -/
theorem main_exits_zero_when_fs_ok (env : GenEnv) (t : TestEnv) (fs : FS)
    (h1 : env.mkdirErr = none) (h2 : env.writeMainErr = none)
    (h3 : env.writeReqErr = none) (h4 : env.writeReadmeErr = none) :
    mainExitCode env t fs = 0 := by
  simp [mainExitCode, main_run, create_project, h1, h2, h3, h4]

def fsOkEnv : GenEnv :=
  ⟨fun _ => Except.error (("unreachable").toList), fun _ => false,
    none, none, none, none⟩

def fsOkTest : TestEnv :=
  ⟨some (("read error").toList), none, none, 1, ("import failed").toList⟩

theorem main_exits_zero_when_fs_ok_witness :
    mainExitCode fsOkEnv fsOkTest [] = 0 :=
  main_exits_zero_when_fs_ok fsOkEnv fsOkTest [] rfl rfl rfl rfl

/-- Forget the smoke-test outcome of a `create_project` result, keeping the
filesystem and the returned path. -/
def dropOutcome (x : FS × TestOutcome × List Char) : FS × List Char :=
  (x.1, x.2.2)

/-- C6: the Smoke Tester never aborts the pipeline: the result of
`create_project` — up to the reported outcome — is the same under any two
smoke-test environments (syntax errors, venv/pip faults, import failures
included), and a stored source that fails validation yields the
`syntaxError` outcome (a printed warning), not an exception. -/
theorem smoke_test_never_aborts
    (env : GenEnv) (t1 t2 : TestEnv) (fs : FS) (requirements project_name : List Char) :
    Except.map dropOutcome (create_project env t1 fs requirements project_name)
      = Except.map dropOutcome (create_project env t2 fs requirements project_name)
    ∧ (∀ (validate : List Char → Bool) (t : TestEnv) (fs2 : FS) (p : List Char),
        t.readMainErr = none →
        validate ((fileAt fs2 (mainPyPath p)).getD []) = false →
        test_project validate t fs2 p = TestOutcome.syntaxError) := by
  constructor
  · cases h1 : env.mkdirErr <;> cases h2 : env.writeMainErr <;>
      cases h3 : env.writeReqErr <;> cases h4 : env.writeReadmeErr <;>
      simp [create_project, h1, h2, h3, h4, dropOutcome, Except.map]
  · intro v t fs2 p hr hv
    simp [test_project, hr, hv]

def smokeEnv : GenEnv :=
  ⟨fun _ => Except.ok (("x = 1").toList), fun _ => true, none, none, none, none⟩

def smokeTestQuiet : TestEnv := ⟨none, none, none, 0, []⟩

def smokeTestFail : TestEnv :=
  ⟨none, some (("venv creation failed").toList), none, 1, ("no module").toList⟩

theorem smoke_test_never_aborts_witness :
    Except.map dropOutcome
        (create_project smokeEnv smokeTestQuiet [] (("r").toList) (("demo").toList))
      = Except.map dropOutcome
        (create_project smokeEnv smokeTestFail [] (("r").toList) (("demo").toList))
    ∧ test_project (fun _ => false) smokeTestQuiet [] (("p").toList)
        = TestOutcome.syntaxError := by
  have h := smoke_test_never_aborts smokeEnv smokeTestQuiet smokeTestFail []
    (("r").toList) (("demo").toList)
  exact ⟨h.1, h.2 (fun _ => false) smokeTestQuiet [] (("p").toList) rfl rfl⟩

/-- C8: a successful run materializes the three files under
`output/<project_name>/`; a second run with the same name and different
final source overwrites `main.py` (the most recent write wins), while the
written `requirements.txt` is the identical fixed four-entry manifest
regardless of all inputs. -/
theorem materializer_three_files_and_overwrite
    (e1 e2 : GenEnv) (t1 t2 : TestEnv) (fs : FS) (req1 req2 project_name : List Char)
    (h11 : e1.mkdirErr = none) (h12 : e1.writeMainErr = none)
    (h13 : e1.writeReqErr = none) (h14 : e1.writeReadmeErr = none)
    (h21 : e2.mkdirErr = none) (h22 : e2.writeMainErr = none)
    (h23 : e2.writeReqErr = none) (h24 : e2.writeReadmeErr = none) :
    ∃ fs1 o1 fs2 o2,
      create_project e1 t1 fs req1 project_name
        = Except.ok (fs1, o1, projectPathOf project_name)
      ∧ create_project e2 t2 fs1 req2 project_name
        = Except.ok (fs2, o2, projectPathOf project_name)
      ∧ fileAt fs2 (mainPyPath (projectPathOf project_name))
          = some (enhance_with_llm e2.validate e2.llm
              (create_working_fastapi_app req2) req2)
      ∧ fileAt fs2 (reqTxtPath (projectPathOf project_name)) = some requirementsTxt
      ∧ fileAt fs2 (readmePath (projectPathOf project_name))
          = some (readmeContent project_name req2)
      ∧ manifestEntries requirementsTxt
          = [("fastapi>=0.104.0").toList, ("uvicorn>=0.24.0").toList,
             ("pydantic>=2.0.0").toList, ("python-multipart>=0.0.6").toList] := by
  refine ⟨mkFs3 e1 fs req1 project_name, _,
    mkFs3 e2 (mkFs3 e1 fs req1 project_name) req2 project_name, _,
    create_project_ok e1 t1 fs req1 project_name h11 h12 h13 h14,
    create_project_ok e2 t2 (mkFs3 e1 fs req1 project_name) req2 project_name
      h21 h22 h23 h24,
    fileAt_mkFs3_main e2 _ req2 project_name,
    fileAt_mkFs3_reqTxt e2 _ req2 project_name,
    fileAt_mkFs3_readme e2 _ req2 project_name,
    by decide⟩

def firstRunEnv : GenEnv :=
  ⟨fun _ => Except.error (("timeout").toList), fun _ => true, none, none, none, none⟩

def secondRunEnv : GenEnv :=
  ⟨fun _ => Except.ok (("x = 2").toList), fun _ => true, none, none, none, none⟩

def runTest : TestEnv := ⟨none, none, none, 0, []⟩

theorem materializer_three_files_and_overwrite_witness :
    ∃ fs1 o1 fs2 o2,
      create_project firstRunEnv runTest [] (("r1").toList) (("demo").toList)
        = Except.ok (fs1, o1, projectPathOf (("demo").toList))
      ∧ create_project secondRunEnv runTest fs1 (("r2").toList) (("demo").toList)
        = Except.ok (fs2, o2, projectPathOf (("demo").toList))
      ∧ fileAt fs2 (mainPyPath (projectPathOf (("demo").toList)))
          = some (enhance_with_llm secondRunEnv.validate secondRunEnv.llm
              (create_working_fastapi_app (("r2").toList)) (("r2").toList))
      ∧ fileAt fs2 (reqTxtPath (projectPathOf (("demo").toList))) = some requirementsTxt
      ∧ fileAt fs2 (readmePath (projectPathOf (("demo").toList)))
          = some (readmeContent (("demo").toList) (("r2").toList))
      ∧ manifestEntries requirementsTxt
          = [("fastapi>=0.104.0").toList, ("uvicorn>=0.24.0").toList,
             ("pydantic>=2.0.0").toList, ("python-multipart>=0.0.6").toList] :=
  materializer_three_files_and_overwrite firstRunEnv secondRunEnv runTest runTest []
    (("r1").toList) (("r2").toList) (("demo").toList)
    rfl rfl rfl rfl rfl rfl rfl rfl

/-- C9: the README assembled by the Materializer contains the requirements
string verbatim as a contiguous substring, and the manifest written
alongside it has exactly 4 entries. -/
theorem readme_contains_requirements_verbatim (requirements project_name : List Char) :
    requirements <:+: readmeContent project_name requirements
    ∧ (manifestEntries requirementsTxt).length = 4 := by
  constructor
  · refine ⟨("# ").toList ++ project_name ++ ['\n', '\n'],
      '\n' :: joinWithNewlines ((readmeParts project_name requirements).drop 3), ?_⟩
    simp [readmeContent, readmeParts, joinWithNewlines]
  · decide

end RobustGenerator
